import Mathlib

/-!
Shallow embedding of the target-tracking state machine and rule-based
controller of the Visual-Feedback-Loop repository
(src/vision/tracker.py, src/control/controller.py, src/loop/feedback_loop.py),
together with proofs of the specification's claims about them.

Python floats are modelled as rationals (all constants in the code are
exactly representable), frame dimensions as rationals (Python ints embed),
detection lists as Lean lists, and the tracker's mutable state as explicit
state passing: `update` returns the new tracker state together with the
emitted tracker-state dictionary (modelled as the structure `TrackerState`).
-/

namespace VFL

/-- An axis-aligned bounding box `[x1, y1, x2, y2]` in frame pixel space. -/
structure Bbox where
  x1 : ℚ
  y1 : ℚ
  x2 : ℚ
  y2 : ℚ
deriving DecidableEq, Repr

/-- One detection, as produced by the external detector; only the field the
tracker reads (`bbox_xyxy`) is modelled. -/
structure Detection where
  bbox_xyxy : Bbox
deriving DecidableEq, Repr

/-- `center_of_bbox` from src/vision/tracker.py: the `(cx, cy)` center of a
bbox `[x1, y1, x2, y2]`. -/
def center_of_bbox (xyxy : Bbox) : ℚ × ℚ :=
  ((xyxy.x1 + xyxy.x2) / 2, (xyxy.y1 + xyxy.y2) / 2)

/-- `bbox_in_frame_normalized` from src/vision/tracker.py: the center of the
box divided by the frame dimensions, falling back to `1/2` on a zero
dimension (Python's `cx / width if width else 0.5`). -/
def bbox_in_frame_normalized (xyxy : Bbox) (width height : ℚ) : ℚ × ℚ :=
  let c := center_of_bbox xyxy
  ((if width ≠ 0 then c.1 / width else 1/2),
   (if height ≠ 0 then c.2 / height else 1/2))

/-- The dictionary returned by `SimpleTracker.update`. -/
structure TrackerState where
  found : Bool
  cx_norm : ℚ
  cy_norm : ℚ
  bbox_xyxy : Option Bbox
deriving DecidableEq, Repr

/-- The mutable state of `SimpleTracker` (src/vision/tracker.py). -/
structure SimpleTracker where
  last_center : Option (ℚ × ℚ)
  lost_frames : ℕ
  lost_threshold : ℕ
deriving DecidableEq, Repr

/-- `SimpleTracker.__init__`: no remembered center, zero lost frames,
threshold 10. -/
def SimpleTracker.init : SimpleTracker :=
  { last_center := none, lost_frames := 0, lost_threshold := 10 }

/-- `SimpleTracker.update` from src/vision/tracker.py, with the mutation of
`self` made explicit: returns the updated tracker and the emitted state. -/
def SimpleTracker.update (t : SimpleTracker) (detections : List Detection)
    (frame_width frame_height : ℚ) : SimpleTracker × TrackerState :=
  match detections with
  | [] =>
    let lost_frames := t.lost_frames + 1
    let last_center := if lost_frames ≥ t.lost_threshold then none else t.last_center
    ({ t with lost_frames := lost_frames, last_center := last_center },
     { found := decide (lost_frames < t.lost_threshold) && last_center.isSome
       cx_norm := match last_center with | none => 1/2 | some c => c.1
       cy_norm := match last_center with | none => 1/2 | some c => c.2
       bbox_xyxy := none })
  | d :: _ =>
    let c := bbox_in_frame_normalized d.bbox_xyxy frame_width frame_height
    ({ t with last_center := some c, lost_frames := 0 },
     { found := true, cx_norm := c.1, cy_norm := c.2,
       bbox_xyxy := some d.bbox_xyxy })

/-- `ControlSignal` from src/control/controller.py. -/
structure ControlSignal where
  linear : ℚ
  angular : ℚ
  mode : String
deriving DecidableEq, Repr

/-- The `Controller`'s configuration (src/control/controller.py). -/
structure Controller where
  center_margin : ℚ
  forward_speed : ℚ
  rotate_speed : ℚ
  search_speed : ℚ
deriving DecidableEq, Repr

/-- `Controller.__init__` with its default arguments:
`center_margin=0.15, forward_speed=0.5, rotate_speed=0.4, search_speed=0.2`. -/
def Controller.init : Controller :=
  { center_margin := 15/100, forward_speed := 1/2,
    rotate_speed := 2/5, search_speed := 1/5 }

/-- `Controller.update` from src/control/controller.py: the ordered rule
list mapping a tracker state to a control signal. -/
def Controller.update (c : Controller) (tracker_state : TrackerState) :
    ControlSignal :=
  let found := tracker_state.found
  let cx_norm := tracker_state.cx_norm
  let center : ℚ := 1/2
  let margin := c.center_margin
  if !found then
    { linear := 0, angular := c.search_speed, mode := "search" }
  else if cx_norm < center - margin then
    { linear := 0, angular := c.rotate_speed, mode := "rotate_left" }
  else if cx_norm > center + margin then
    { linear := 0, angular := -c.rotate_speed, mode := "rotate_right" }
  else
    { linear := c.forward_speed, angular := 0, mode := "forward" }

/-- `FeedbackLoop` (src/loop/feedback_loop.py): the orchestrator's state
relevant to control is its tracker and controller; the external detector is
modelled by passing each frame's detections as input to `step`. -/
structure FeedbackLoop where
  tracker : SimpleTracker
  controller : Controller
deriving DecidableEq, Repr

/-- `FeedbackLoop.step`: one cycle — tracker update on this frame's
detections and dimensions, then controller update on the tracker state
(drawing is presentation-only and not modelled). -/
def FeedbackLoop.step (loop : FeedbackLoop) (detections : List Detection)
    (w h : ℚ) : FeedbackLoop × TrackerState × ControlSignal :=
  let r := loop.tracker.update detections w h
  let control := loop.controller.update r.2
  ({ loop with tracker := r.1 }, r.2, control)

/-- Iterated cycles: run `step` once per frame, collecting every emitted
tracker state and control signal. -/
def FeedbackLoop.run (loop : FeedbackLoop) :
    List (List Detection × ℚ × ℚ) →
      FeedbackLoop × List (TrackerState × ControlSignal)
  | [] => (loop, [])
  | f :: rest =>
    let s := loop.step f.1 f.2.1 f.2.2
    let r := s.1.run rest
    (r.1, (s.2.1, s.2.2) :: r.2)

/-- Iterated tracker updates: one `update` per input
`(detections, width, height)`, collecting the emitted tracker states. -/
def SimpleTracker.runUpdates (t : SimpleTracker) :
    List (List Detection × ℚ × ℚ) → SimpleTracker × List TrackerState
  | [] => (t, [])
  | f :: rest =>
    let s := t.update f.1 f.2.1 f.2.2
    let r := s.1.runUpdates rest
    (r.1, s.2 :: r.2)

/-- A sequence of empty-detection updates, one per `(width, height)` pair. -/
def emptyInputs (dims : List (ℚ × ℚ)) : List (List Detection × ℚ × ℚ) :=
  dims.map (fun wh => ([], wh.1, wh.2))

/-! ### Basic lemmas about single updates and iterated updates -/

/-- An empty-detection update while the remembered center survives the
grace period: the stale center is re-emitted as found. -/
lemma update_nil_some_lt (t : SimpleTracker) (c : ℚ × ℚ) (w h : ℚ)
    (hc : t.last_center = some c) (hlt : t.lost_frames + 1 < t.lost_threshold) :
    t.update [] w h =
      (⟨some c, t.lost_frames + 1, t.lost_threshold⟩, ⟨true, c.1, c.2, none⟩) := by
  have hn : ¬ (t.lost_frames + 1 ≥ t.lost_threshold) := not_le.mpr hlt
  simp [SimpleTracker.update, hc, hn, hlt]

/-- An empty-detection update whose incremented miss count reaches the
threshold: the center is forgotten and the default state is emitted. -/
lemma update_nil_expire (t : SimpleTracker) (w h : ℚ)
    (hge : t.lost_frames + 1 ≥ t.lost_threshold) :
    t.update [] w h =
      (⟨none, t.lost_frames + 1, t.lost_threshold⟩, ⟨false, 1/2, 1/2, none⟩) := by
  simp [SimpleTracker.update, hge, not_lt.mpr hge]

/-- An empty-detection update with no remembered center: the default state
is emitted and the center stays absent. -/
lemma update_nil_none (t : SimpleTracker) (w h : ℚ)
    (hc : t.last_center = none) :
    t.update [] w h =
      (⟨none, t.lost_frames + 1, t.lost_threshold⟩, ⟨false, 1/2, 1/2, none⟩) := by
  simp [SimpleTracker.update, hc]

lemma runUpdates_nil (t : SimpleTracker) : t.runUpdates [] = (t, []) := rfl

lemma runUpdates_cons (t : SimpleTracker) (f : List Detection × ℚ × ℚ)
    (rest : List (List Detection × ℚ × ℚ)) :
    t.runUpdates (f :: rest) =
      (((t.update f.1 f.2.1 f.2.2).1.runUpdates rest).1,
       (t.update f.1 f.2.1 f.2.2).2 ::
         ((t.update f.1 f.2.1 f.2.2).1.runUpdates rest).2) := rfl

/-- Starting with a remembered center and miss count `j`, a block of empty
updates short enough to stay inside the grace period just counts misses and
re-emits the stale center every time. -/
lemma runEmpty_some (c : ℚ × ℚ) (T : ℕ) (dims : List (ℚ × ℚ)) :
    ∀ j : ℕ, j + dims.length < T →
      (SimpleTracker.runUpdates ⟨some c, j, T⟩ (emptyInputs dims)) =
        (⟨some c, j + dims.length, T⟩,
         List.replicate dims.length ⟨true, c.1, c.2, none⟩) := by
  induction dims with
  | nil => intro j h; simp [emptyInputs, runUpdates_nil]
  | cons wh rest ih =>
    intro j h
    have h' : j + (rest.length + 1) < T := by simpa using h
    have hstep := update_nil_some_lt ⟨some c, j, T⟩ c wh.1 wh.2 rfl
      ((by omega : j + 1 < T))
    have hrec := ih (j + 1) (by omega)
    simp only [emptyInputs, List.map_cons, runUpdates_cons]
    rw [hstep]
    simp only [emptyInputs] at hrec
    simp only [hrec, List.length_cons, List.replicate]
    have e : j + 1 + rest.length = j + (rest.length + 1) := by omega
    rw [e]

/-- With no remembered center, empty updates are absorbed: the center stays
absent and every emitted state is the lost default. -/
lemma runEmpty_none (dims : List (ℚ × ℚ)) :
    ∀ t : SimpleTracker, t.last_center = none →
      (t.runUpdates (emptyInputs dims)).1.last_center = none ∧
      (t.runUpdates (emptyInputs dims)).2 =
        List.replicate dims.length ⟨false, 1/2, 1/2, none⟩ := by
  induction dims with
  | nil => intro t hc; simpa [emptyInputs, runUpdates_nil] using hc
  | cons wh rest ih =>
    intro t hc
    have hstep := update_nil_none t wh.1 wh.2 hc
    have hrec := ih ⟨none, t.lost_frames + 1, t.lost_threshold⟩ rfl
    simp only [emptyInputs, List.map_cons, runUpdates_cons, hstep]
    simp only [emptyInputs] at hrec
    simp [hrec.1, hrec.2, List.replicate]

/-! ### Bounds of the normalized coordinates -/

/-- A well-formed box lying fully inside a frame of positive dimensions. -/
def InFrame (b : Bbox) (w h : ℚ) : Prop :=
  0 < w ∧ 0 < h ∧ b.x1 ≤ b.x2 ∧ b.y1 ≤ b.y2 ∧
  0 ≤ b.x1 ∧ b.x2 ≤ w ∧ 0 ≤ b.y1 ∧ b.y2 ≤ h

/-- The emitted normalized coordinates lie in the unit interval. -/
def UnitBounded (s : TrackerState) : Prop :=
  0 ≤ s.cx_norm ∧ s.cx_norm ≤ 1 ∧ 0 ≤ s.cy_norm ∧ s.cy_norm ≤ 1

/-- The tracker's remembered center, when present, lies in the unit square. -/
def centerOK (t : SimpleTracker) : Prop :=
  ∀ c, t.last_center = some c → 0 ≤ c.1 ∧ c.1 ≤ 1 ∧ 0 ≤ c.2 ∧ c.2 ≤ 1

/-- An input to `update` that is either empty or whose first detection lies
fully inside a frame of positive dimensions. -/
def GoodInput (f : List Detection × ℚ × ℚ) : Prop :=
  f.1 = [] ∨ ∃ d rest, f.1 = d :: rest ∧ InFrame d.bbox_xyxy f.2.1 f.2.2

lemma normalized_bounds (b : Bbox) (w h : ℚ) (hb : InFrame b w h) :
    0 ≤ (bbox_in_frame_normalized b w h).1 ∧
    (bbox_in_frame_normalized b w h).1 ≤ 1 ∧
    0 ≤ (bbox_in_frame_normalized b w h).2 ∧
    (bbox_in_frame_normalized b w h).2 ≤ 1 := by
  obtain ⟨hw, hh, hx, hy, hx1, hx2, hy1, hy2⟩ := hb
  unfold bbox_in_frame_normalized center_of_bbox
  simp only [ne_eq, hw.ne', not_false_iff, if_true, hh.ne']
  refine ⟨div_nonneg (by linarith) hw.le, ?_,
    div_nonneg (by linarith) hh.le, ?_⟩
  · rw [div_le_one hw]; linarith
  · rw [div_le_one hh]; linarith

/-- One update on a good input keeps the remembered center in the unit
square and emits a state with coordinates in the unit interval. -/
lemma update_bounds (t : SimpleTracker) (f : List Detection × ℚ × ℚ)
    (hok : centerOK t) (hg : GoodInput f) :
    UnitBounded (t.update f.1 f.2.1 f.2.2).2 ∧
    centerOK (t.update f.1 f.2.1 f.2.2).1 := by
  rcases hg with hemp | ⟨d, rest, hcons, hin⟩
  · rw [hemp]
    by_cases hc : (if t.lost_frames + 1 ≥ t.lost_threshold then none
        else t.last_center) = none
    · constructor
      · simp [SimpleTracker.update, UnitBounded, hc]
        norm_num
      · intro c hc'
        simp only [SimpleTracker.update] at hc'
        rw [hc] at hc'
        exact absurd hc' (by simp)
    · obtain ⟨c, hc'⟩ := Option.ne_none_iff_exists'.mp hc
      have hlast : t.last_center = some c := by
        by_cases hge : t.lost_frames + 1 ≥ t.lost_threshold
        · rw [if_pos hge] at hc'; exact absurd hc' (by simp)
        · rwa [if_neg hge] at hc'
      have hb := hok c hlast
      constructor
      · simp [SimpleTracker.update, UnitBounded, hc']
        exact ⟨hb.1, hb.2.1, hb.2.2.1, hb.2.2.2⟩
      · intro c' hcc
        simp only [SimpleTracker.update] at hcc
        rw [hc'] at hcc
        simp at hcc
        rw [← hcc]
        exact hb
  · rw [hcons]
    have hb := normalized_bounds d.bbox_xyxy f.2.1 f.2.2 hin
    constructor
    · simpa [SimpleTracker.update, UnitBounded] using hb
    · intro c' hcc
      simp only [SimpleTracker.update] at hcc
      simp at hcc
      rw [← hcc]
      exact hb

/-- Every state emitted along a sequence of good inputs has its normalized
coordinates in the unit interval, and the remembered center stays in the
unit square. -/
lemma runUpdates_bounds (inputs : List (List Detection × ℚ × ℚ)) :
    ∀ t : SimpleTracker, centerOK t → (∀ f ∈ inputs, GoodInput f) →
      (∀ s ∈ (t.runUpdates inputs).2, UnitBounded s) ∧
      centerOK (t.runUpdates inputs).1 := by
  induction inputs with
  | nil => intro t hok _; simpa [runUpdates_nil] using hok
  | cons f rest ih =>
    intro t hok hg
    have hstep := update_bounds t f hok (hg f (by simp))
    have hrec := ih (t.update f.1 f.2.1 f.2.2).1 hstep.2
      (fun f' hf' => hg f' (by simp [hf']))
    rw [runUpdates_cons]
    refine ⟨?_, hrec.2⟩
    intro s hs
    simp only [List.mem_cons] at hs
    rcases hs with hs | hs
    · rw [hs]; exact hstep.1
    · exact hrec.1 s hs

/-! ### Branch characterizations of the controller's rule list -/

lemma controller_not_found (c : Controller) (ts : TrackerState)
    (hf : ts.found = false) :
    c.update ts = ⟨0, c.search_speed, "search"⟩ := by
  simp only [Controller.update, hf]
  rfl

lemma controller_rotate_left (c : Controller) (ts : TrackerState)
    (hf : ts.found = true) (h : ts.cx_norm < 1/2 - c.center_margin) :
    c.update ts = ⟨0, c.rotate_speed, "rotate_left"⟩ := by
  simp only [Controller.update, hf]
  rw [if_neg (by simp), if_pos h]

lemma controller_rotate_right (c : Controller) (ts : TrackerState)
    (hf : ts.found = true) (h1 : ¬ ts.cx_norm < 1/2 - c.center_margin)
    (h2 : ts.cx_norm > 1/2 + c.center_margin) :
    c.update ts = ⟨0, -c.rotate_speed, "rotate_right"⟩ := by
  simp only [Controller.update, hf]
  rw [if_neg (by simp), if_neg h1, if_pos h2]

lemma controller_forward (c : Controller) (ts : TrackerState)
    (hf : ts.found = true) (h1 : ¬ ts.cx_norm < 1/2 - c.center_margin)
    (h2 : ¬ ts.cx_norm > 1/2 + c.center_margin) :
    c.update ts = ⟨c.forward_speed, 0, "forward"⟩ := by
  simp only [Controller.update, hf]
  rw [if_neg (by simp), if_neg h1, if_neg h2]

/-! ### The specification's claims -/

/-- C1 (Hysteresis): from a tracker state where a non-empty update has just
set `last_center = (cx, cy)` and `lost_frames = 0`, every k-th consecutive
empty-detection update with `1 ≤ k < lost_threshold` returns
`found = true` with the stale `(cx, cy)`, and the update at
`k = lost_threshold` returns `found = false` with `(1/2, 1/2)`.
Here the k-th update is the one following `dims.length = k - 1` earlier
empty updates, each with arbitrary frame dimensions. -/
theorem hysteresis_grace_period (t : SimpleTracker) (cx cy : ℚ) (T : ℕ)
    (h1 : t.last_center = some (cx, cy)) (h2 : t.lost_frames = 0)
    (h3 : t.lost_threshold = T) :
    (∀ (dims : List (ℚ × ℚ)) (w h : ℚ), dims.length + 1 < T →
      ((t.runUpdates (emptyInputs dims)).1.update [] w h).2 =
        ⟨true, cx, cy, none⟩) ∧
    (∀ (dims : List (ℚ × ℚ)) (w h : ℚ), dims.length + 1 = T →
      ((t.runUpdates (emptyInputs dims)).1.update [] w h).2 =
        ⟨false, 1/2, 1/2, none⟩) := by
  have ht : t = ⟨some (cx, cy), 0, T⟩ := by
    cases t; simp_all
  constructor
  · intro dims w h hk
    rw [ht, runEmpty_some (cx, cy) T dims 0 (by omega)]
    rw [update_nil_some_lt _ (cx, cy) w h rfl
      ((by omega : 0 + dims.length + 1 < T))]
  · intro dims w h hk
    rw [ht, runEmpty_some (cx, cy) T dims 0 (by omega)]
    rw [update_nil_expire _ w h ((by omega : 0 + dims.length + 1 ≥ T))]

/-- Witness for C1 at the default threshold 10 and center (3/10, 1/2):
the 1st empty update re-emits the stale center, the 10th resets. -/
theorem hysteresis_grace_period_witness :
    ((((⟨some (3/10, 1/2), 0, 10⟩ : SimpleTracker).runUpdates
        (emptyInputs [])).1.update [] 0 0).2 = ⟨true, 3/10, 1/2, none⟩) ∧
    ((((⟨some (3/10, 1/2), 0, 10⟩ : SimpleTracker).runUpdates
        (emptyInputs (List.replicate 9 (0, 0)))).1.update [] 0 0).2 =
      ⟨false, 1/2, 1/2, none⟩) := by
  have h := hysteresis_grace_period ⟨some (3/10, 1/2), 0, 10⟩ (3/10) (1/2) 10
    rfl rfl rfl
  exact ⟨h.1 [] 0 0 (by norm_num), h.2 (List.replicate 9 (0, 0)) 0 0 (by simp)⟩

/-- C3 (Invariant): whenever an `update` call returns `found = false`, the
returned `cx_norm` and `cy_norm` are both exactly 1/2 — for every tracker
state (so in particular every reachable one) and every input. -/
theorem lost_output_is_center (t : SimpleTracker) (detections : List Detection)
    (w h : ℚ) (hf : (t.update detections w h).2.found = false) :
    (t.update detections w h).2.cx_norm = 1/2 ∧
    (t.update detections w h).2.cy_norm = 1/2 := by
  cases detections with
  | cons d rest => simp [SimpleTracker.update] at hf
  | nil =>
    by_cases hge : t.lost_frames + 1 ≥ t.lost_threshold
    · rw [update_nil_expire t w h hge]
      exact ⟨rfl, rfl⟩
    · cases hc : t.last_center with
      | none =>
        rw [update_nil_none t w h hc]
        exact ⟨rfl, rfl⟩
      | some c =>
        rw [update_nil_some_lt t c w h hc (not_le.mp hge)] at hf
        simp at hf

/-- Witness for C3: a fresh tracker's first empty update has
`found = false` and indeed reports center (1/2, 1/2). -/
theorem lost_output_is_center_witness :
    (SimpleTracker.init.update [] 0 0).2.cx_norm = 1/2 ∧
    (SimpleTracker.init.update [] 0 0).2.cy_norm = 1/2 :=
  lost_output_is_center SimpleTracker.init [] 0 0
    (by simp [SimpleTracker.init, SimpleTracker.update])

/-- C4 (Normalization bound): a non-empty update whose first detection's
box lies inside a frame of positive dimensions emits coordinates in [0,1];
and along any sequence of such in-frame updates interleaved with empty
updates, every emitted coordinate pair lies in [0,1]. -/
theorem normalization_bound :
    (∀ (t : SimpleTracker) (d : Detection) (rest : List Detection) (w h : ℚ),
      InFrame d.bbox_xyxy w h → UnitBounded (t.update (d :: rest) w h).2) ∧
    (∀ inputs : List (List Detection × ℚ × ℚ),
      (∀ f ∈ inputs, GoodInput f) →
      ∀ s ∈ (SimpleTracker.init.runUpdates inputs).2, UnitBounded s) := by
  constructor
  · intro t d rest w h hin
    have hb := normalized_bounds d.bbox_xyxy w h hin
    simpa [SimpleTracker.update, UnitBounded] using hb
  · intro inputs hg s hs
    have h := runUpdates_bounds inputs SimpleTracker.init
      (fun c hc => by simp [SimpleTracker.init] at hc) hg
    exact h.1 s hs

/-- Witness for C4: the box [2,4,4,6] inside a 10×10 frame yields
coordinates in [0,1]. -/
theorem normalization_bound_witness :
    UnitBounded (SimpleTracker.init.update [⟨⟨2, 4, 4, 6⟩⟩] 10 10).2 :=
  normalization_bound.1 SimpleTracker.init ⟨⟨2, 4, 4, 6⟩⟩ [] 10 10
    (by norm_num [InFrame])

/-- C5 (No-detection-before-acquisition): a freshly constructed tracker fed
any number of empty-detection updates (with arbitrary frame dimensions)
returns `found = false` and `(1/2, 1/2)` on every call. -/
theorem no_detection_before_acquisition (dims : List (ℚ × ℚ)) :
    (SimpleTracker.init.runUpdates (emptyInputs dims)).2 =
      List.replicate dims.length ⟨false, 1/2, 1/2, none⟩ :=
  (runEmpty_none dims SimpleTracker.init rfl).2

/-- C10 (Lost state absorbing): once `last_center` is `none`, every further
sequence of empty-detection updates keeps it `none` and every emitted state
is `found = false` with `(1/2, 1/2)` — the tracker never reports
`found = true` again until a non-empty detection list arrives. -/
theorem lost_state_absorbing (t : SimpleTracker) (dims : List (ℚ × ℚ))
    (hc : t.last_center = none) :
    (t.runUpdates (emptyInputs dims)).1.last_center = none ∧
    (t.runUpdates (emptyInputs dims)).2 =
      List.replicate dims.length ⟨false, 1/2, 1/2, none⟩ :=
  runEmpty_none dims t hc

/-- Witness for C10: a lost tracker mid-count stays lost over two further
empty updates. -/
theorem lost_state_absorbing_witness :
    ((⟨none, 5, 10⟩ : SimpleTracker).runUpdates
        (emptyInputs [(640, 480), (0, 0)])).1.last_center = none ∧
    ((⟨none, 5, 10⟩ : SimpleTracker).runUpdates
        (emptyInputs [(640, 480), (0, 0)])).2 =
      List.replicate 2 ⟨false, 1/2, 1/2, none⟩ := by
  have h := lost_state_absorbing ⟨none, 5, 10⟩ [(640, 480), (0, 0)] rfl
  exact ⟨h.1, by simpa using h.2⟩

/-- C6 (Controller boundary): for any configuration with a non-negative
`center_margin` (per the data model the margin is a positive scalar) and a
found target, `cx_norm` exactly at either band edge yields mode `forward`;
with `center_margin = 15/100`, `cx_norm = 3/10` yields `rotate_left`,
`7/10` yields `rotate_right`, and `1/2`, `35/100`, `65/100` yield
`forward`. -/
theorem controller_boundary (c : Controller) (hm : 0 ≤ c.center_margin) :
    (∀ ts : TrackerState, ts.found = true →
      (ts.cx_norm = 1/2 - c.center_margin ∨
       ts.cx_norm = 1/2 + c.center_margin) →
      (c.update ts).mode = "forward") ∧
    (c.center_margin = 15/100 →
      ∀ ts : TrackerState, ts.found = true →
        ((ts.cx_norm = 3/10 → (c.update ts).mode = "rotate_left") ∧
         (ts.cx_norm = 7/10 → (c.update ts).mode = "rotate_right") ∧
         ((ts.cx_norm = 1/2 ∨ ts.cx_norm = 35/100 ∨ ts.cx_norm = 65/100) →
           (c.update ts).mode = "forward"))) := by
  constructor
  · intro ts hf hx
    have h1 : ¬ (ts.cx_norm < 1/2 - c.center_margin) := by
      rcases hx with h | h <;> rw [h] <;> [exact lt_irrefl _; linarith]
    have h2 : ¬ (ts.cx_norm > 1/2 + c.center_margin) := by
      rcases hx with h | h <;> rw [h] <;> [linarith; exact lt_irrefl _]
    rw [controller_forward c ts hf h1 h2]
  · intro hcm ts hf
    refine ⟨fun hx => ?_, fun hx => ?_, fun hx => ?_⟩
    · rw [controller_rotate_left c ts hf (by rw [hx, hcm]; norm_num)]
    · rw [controller_rotate_right c ts hf (by rw [hx, hcm]; norm_num)
        (by rw [hx, hcm]; norm_num)]
    · rcases hx with hx | hx | hx <;>
        rw [controller_forward c ts hf (by rw [hx, hcm]; norm_num)
          (by rw [hx, hcm]; norm_num)]

/-- Witness for C6: with the default configuration, a found target exactly
at the left band edge `35/100 = 1/2 - 15/100` moves forward. -/
theorem controller_boundary_witness :
    (Controller.init.update ⟨true, 35/100, 1/2, none⟩).mode = "forward" :=
  (controller_boundary Controller.init (by norm_num [Controller.init])).1
    ⟨true, 35/100, 1/2, none⟩ rfl (Or.inl (by norm_num [Controller.init]))

/-- C7 (stop never emitted): for every configuration and every tracker
state, the emitted mode is one of the four strings `search`, `rotate_left`,
`rotate_right`, `forward` — in particular it is never `stop`. -/
theorem stop_never_emitted (c : Controller) (ts : TrackerState) :
    ((c.update ts).mode = "search" ∨ (c.update ts).mode = "rotate_left" ∨
     (c.update ts).mode = "rotate_right" ∨ (c.update ts).mode = "forward") ∧
    (c.update ts).mode ≠ "stop" := by
  cases hb : ts.found with
  | false =>
    rw [controller_not_found c ts hb]
    exact ⟨Or.inl rfl, by simp⟩
  | true =>
    by_cases h2 : ts.cx_norm < 1/2 - c.center_margin
    · rw [controller_rotate_left c ts hb h2]
      exact ⟨Or.inr (Or.inl rfl), by simp⟩
    · by_cases h3 : ts.cx_norm > 1/2 + c.center_margin
      · rw [controller_rotate_right c ts hb h2 h3]
        exact ⟨Or.inr (Or.inr (Or.inl rfl)), by simp⟩
      · rw [controller_forward c ts hb h2 h3]
        exact ⟨Or.inr (Or.inr (Or.inr rfl)), by simp⟩

/-- Witness for C7 at the default configuration and a lost target. -/
theorem stop_never_emitted_witness :
    ((Controller.init.update ⟨false, 1/2, 1/2, none⟩).mode = "search" ∨
     (Controller.init.update ⟨false, 1/2, 1/2, none⟩).mode = "rotate_left" ∨
     (Controller.init.update ⟨false, 1/2, 1/2, none⟩).mode = "rotate_right" ∨
     (Controller.init.update ⟨false, 1/2, 1/2, none⟩).mode = "forward") ∧
    (Controller.init.update ⟨false, 1/2, 1/2, none⟩).mode ≠ "stop" :=
  stop_never_emitted Controller.init ⟨false, 1/2, 1/2, none⟩

/-- C8 (Zero-dimension guard): a non-empty update with `frame_width = 0`
returns `cx_norm = 1/2`, and with `frame_height = 0` returns
`cy_norm = 1/2` — the fallback instead of a division by zero. -/
theorem zero_dimension_guard (t : SimpleTracker) (d : Detection)
    (rest : List Detection) :
    (∀ h : ℚ, (t.update (d :: rest) 0 h).2.cx_norm = 1/2) ∧
    (∀ w : ℚ, (t.update (d :: rest) w 0).2.cy_norm = 1/2) := by
  constructor <;> intro x <;>
    simp [SimpleTracker.update, bbox_in_frame_normalized]

/-- C9 (Exclusive actuation): every emitted control signal has
`linear = 0` or `angular = 0`; a nonzero `linear` only occurs in mode
`forward`, and a nonzero `angular` only with `linear = 0` in a mode other
than `forward`. -/
theorem control_signal_exclusive (c : Controller) (ts : TrackerState) :
    ((c.update ts).linear = 0 ∨ (c.update ts).angular = 0) ∧
    ((c.update ts).linear ≠ 0 → (c.update ts).mode = "forward") ∧
    ((c.update ts).angular ≠ 0 →
      (c.update ts).linear = 0 ∧ (c.update ts).mode ≠ "forward") := by
  cases hb : ts.found with
  | false =>
    rw [controller_not_found c ts hb]
    exact ⟨Or.inl rfl, fun hl => absurd rfl hl, fun _ => ⟨rfl, by simp⟩⟩
  | true =>
    by_cases h2 : ts.cx_norm < 1/2 - c.center_margin
    · rw [controller_rotate_left c ts hb h2]
      exact ⟨Or.inl rfl, fun hl => absurd rfl hl, fun _ => ⟨rfl, by simp⟩⟩
    · by_cases h3 : ts.cx_norm > 1/2 + c.center_margin
      · rw [controller_rotate_right c ts hb h2 h3]
        exact ⟨Or.inl rfl, fun hl => absurd rfl hl, fun _ => ⟨rfl, by simp⟩⟩
      · rw [controller_forward c ts hb h2 h3]
        exact ⟨Or.inr rfl, fun _ => rfl, fun ha => absurd rfl ha⟩

/-- Witness for C9 at the default configuration and a lost target. -/
theorem control_signal_exclusive_witness :
    ((Controller.init.update ⟨false, 1/2, 1/2, none⟩).linear = 0 ∨
     (Controller.init.update ⟨false, 1/2, 1/2, none⟩).angular = 0) ∧
    ((Controller.init.update ⟨false, 1/2, 1/2, none⟩).linear ≠ 0 →
      (Controller.init.update ⟨false, 1/2, 1/2, none⟩).mode = "forward") ∧
    ((Controller.init.update ⟨false, 1/2, 1/2, none⟩).angular ≠ 0 →
      (Controller.init.update ⟨false, 1/2, 1/2, none⟩).linear = 0 ∧
      (Controller.init.update ⟨false, 1/2, 1/2, none⟩).mode ≠ "forward") :=
  control_signal_exclusive Controller.init ⟨false, 1/2, 1/2, none⟩

/-- C2 counterexample: with the default threshold 10, a detection at
cycle 1 giving normalized center (3/10, 1/2) in a 10×10 frame followed by
nine empty cycles yields `found = true` and mode `rotate_left` on every one
of the ten cycles — cycle 10 is only the 9th consecutive miss, so the
claimed `found = false` / mode `search` at cycle 10 is false. -/
theorem end_to_end_cycle_ten_not_search :
    (((⟨SimpleTracker.init, Controller.init⟩ : FeedbackLoop).run
        (([⟨⟨2, 4, 4, 6⟩⟩], 10, 10) ::
          emptyInputs (List.replicate 9 (10, 10)))).2.map
        (fun p => (p.1.found, p.1.cx_norm, p.1.cy_norm, p.2.mode)) =
      (true, 3/10, 1/2, "rotate_left") ::
        List.replicate 9 (true, 3/10, 1/2, "rotate_left")) ∧
    ((((⟨SimpleTracker.init, Controller.init⟩ : FeedbackLoop).run
        (([⟨⟨2, 4, 4, 6⟩⟩], 10, 10) ::
          emptyInputs (List.replicate 9 (10, 10)))).2.map
        (fun p => (p.1.found, p.1.cx_norm, p.1.cy_norm, p.2.mode)) =
      (true, 3/10, 1/2, "rotate_left") ::
        (List.replicate 8 (true, 3/10, 1/2, "rotate_left") ++
          [(false, 1/2, 1/2, "search")])) = False) := by
  constructor
  · norm_num [FeedbackLoop.run, FeedbackLoop.step, SimpleTracker.update,
      SimpleTracker.init, Controller.update, Controller.init,
      bbox_in_frame_normalized, center_of_bbox, emptyInputs, List.replicate]
  · norm_num [FeedbackLoop.run, FeedbackLoop.step, SimpleTracker.update,
      SimpleTracker.init, Controller.update, Controller.init,
      bbox_in_frame_normalized, center_of_bbox, emptyInputs, List.replicate]

/-- C2 amended: default threshold 10; detection at cycle 1 at normalized
center (3/10, 1/2) yields mode `rotate_left`; with empty detections on
every later cycle, cycles 2 through 10 still report `found = true` at
(3/10, 1/2) with mode `rotate_left`; at cycle 11 — the 10th consecutive
miss — the tracker reports `found = false` and the controller emits
`search`. -/
theorem end_to_end_scenario_amended :
    ((⟨SimpleTracker.init, Controller.init⟩ : FeedbackLoop).run
        (([⟨⟨2, 4, 4, 6⟩⟩], 10, 10) ::
          emptyInputs (List.replicate 10 (10, 10)))).2.map
        (fun p => (p.1.found, p.1.cx_norm, p.1.cy_norm, p.2.mode)) =
      (true, 3/10, 1/2, "rotate_left") ::
        (List.replicate 9 (true, 3/10, 1/2, "rotate_left") ++
          [(false, 1/2, 1/2, "search")]) := by
  norm_num [FeedbackLoop.run, FeedbackLoop.step, SimpleTracker.update,
    SimpleTracker.init, Controller.update, Controller.init,
    bbox_in_frame_normalized, center_of_bbox, emptyInputs, List.replicate]

end VFL
